import Mathlib

/-!
Verification of the grading harness in `src/main.py` against its
specification.  The two pieces of pure logic — the test-output parser
and the deadline classifier — are embedded as executable Lean functions
over `List Char` / `Int`, together with the per-student row construction
of `process_assignment`.  Python regular expressions are modelled over
ASCII character classes (`\d` as `'0'..'9'`, `\s` as the six ASCII
whitespace characters); all inputs used in theorems are ASCII apart from
the fixed Russian status labels.
-/

/-- ASCII decimal digit, the model of the regex class `\d`. -/
def isDigitCh (c : Char) : Bool := '0' ≤ c && c ≤ '9'

/-- ASCII whitespace, the model of the regex class `\s`
(space, tab, newline, vertical tab, form feed, carriage return). -/
def isPySpace (c : Char) : Bool :=
  c = ' ' || c = '\t' || c = '\n' || c = '\x0b' || c = '\x0c' || c = '\r'

/-- Single-character escape after ESC: the regex class `[@-Z\\-_]`
of `main.py` line 334 (code points 0x40–0x5A and 0x5C–0x5F). -/
def isSingleEsc (c : Char) : Bool :=
  (0x40 ≤ c.toNat && c.toNat ≤ 0x5A) || (0x5C ≤ c.toNat && c.toNat ≤ 0x5F)

/-- CSI parameter byte: the regex class `[0-?]` (0x30–0x3F). -/
def isParamByte (c : Char) : Bool := 0x30 ≤ c.toNat && c.toNat ≤ 0x3F

/-- CSI intermediate byte: the regex class of code points 0x20–0x2F. -/
def isInterByte (c : Char) : Bool := 0x20 ≤ c.toNat && c.toNat ≤ 0x2F

/-- CSI final byte: the regex class `[@-~]` (0x40–0x7E). -/
def isFinalByte (c : Char) : Bool := 0x40 ≤ c.toNat && c.toNat ≤ 0x7E

/-- Given the characters following an ESC, return the remainder of the
line after one match of the escape pattern of `main.py` line 334, or `none`
when no match starts at this ESC.  The character classes of the pattern
are pairwise disjoint from what follows them, so Python's greedy
matching is deterministic and modelled by `dropWhile`. -/
def ansiTail (s : List Char) : Option (List Char) :=
  match s with
  | [] => none
  | c :: rest =>
    if isSingleEsc c then some rest
    else if c = '[' then
      match (rest.dropWhile isParamByte).dropWhile isInterByte with
      | [] => none
      | f :: rest2 => if isFinalByte f then some rest2 else none
    else none

/-- Fuelled worker for `stripAnsi`; the fuel only bounds the recursion
depth and is set to the length of the line, which each step decreases. -/
def stripAnsiGo : Nat → List Char → List Char
  | _, [] => []
  | 0, s => s
  | fuel + 1, c :: rest =>
    if c = '\x1b' then
      match ansiTail rest with
      | some rest2 => stripAnsiGo fuel rest2
      | none => c :: stripAnsiGo fuel rest
    else c :: stripAnsiGo fuel rest

/-- `ansi_escape.sub('', line)` of `main.py` line 334 / 126: delete every
(leftmost, non-overlapping) match of the ANSI escape pattern. -/
def stripAnsi (s : List Char) : List Char := stripAnsiGo s.length s

/-- `hasPrefixL p s` holds when the word `p` starts the word `s`. -/
def hasPrefixL : List Char → List Char → Bool
  | [], _ => true
  | _ :: _, [] => false
  | p :: ps, c :: cs => p = c && hasPrefixL ps cs

/-- Python's `pat in s` substring test. -/
def containsSub (pat : List Char) : List Char → Bool
  | [] => hasPrefixL pat []
  | c :: rest => hasPrefixL pat (c :: rest) || containsSub pat rest

/-- Drop the literal `pat` from the front of `s`, or fail. -/
def dropLit : List Char → List Char → Option (List Char)
  | [], s => some s
  | _ :: _, [] => none
  | p :: ps, c :: cs => if c = p then dropLit ps cs else none

/-- Value of a run of decimal digits, as Python's `int` reads it. -/
def digitsToNat (ds : List Char) : Nat :=
  ds.foldl (fun acc c => acc * 10 + (c.toNat - 48)) 0

/-- The literal `'Test Suites:'`. -/
def tsLit : List Char := "Test Suites:".toList

/-- The literal `'passed'`. -/
def passedLit : List Char := "passed".toList

/-- Attempt the pattern `Test Suites:\s*(\d+) passed, (\d+) total`
starting exactly at the head of `s` (`main.py` line 340).  All class
boundaries of the pattern are disjoint, so greedy matching needs no
backtracking and is modelled by `takeWhile`/`dropWhile`. -/
def matchRichAt (s : List Char) : Option (Nat × Nat) :=
  match dropLit tsLit s with
  | none => none
  | some s1 =>
    let s2 := s1.dropWhile isPySpace
    let ds := s2.takeWhile isDigitCh
    if ds.isEmpty then none
    else
      match dropLit " passed, ".toList (s2.dropWhile isDigitCh) with
      | none => none
      | some s3 =>
        let ds2 := s3.takeWhile isDigitCh
        if ds2.isEmpty then none
        else
          match dropLit " total".toList (s3.dropWhile isDigitCh) with
          | none => none
          | some _ => some (digitsToNat ds, digitsToNat ds2)

/-- `re.search` with the rich pattern: try every start position from the
left and take the first that matches. -/
def searchRich : List Char → Option (Nat × Nat)
  | [] => none
  | c :: rest =>
    match matchRichAt (c :: rest) with
    | some r => some r
    | none => searchRich rest

/-- Attempt the pattern `(\d+)\s+passed` starting exactly at the head of
`s` (`main.py` line 348 / 147). -/
def matchSimpleAt (s : List Char) : Option Nat :=
  let ds := s.takeWhile isDigitCh
  if ds.isEmpty then none
  else
    let s1 := s.dropWhile isDigitCh
    if (s1.takeWhile isPySpace).isEmpty then none
    else
      match dropLit passedLit (s1.dropWhile isPySpace) with
      | none => none
      | some _ => some (digitsToNat ds)

/-- `re.search` with the fallback pattern `(\d+)\s+passed`. -/
def searchSimple : List Char → Option Nat
  | [] => none
  | c :: rest =>
    match matchSimpleAt (c :: rest) with
    | some n => some n
    | none => searchSimple rest

/-- Python's `output.split('\n')`: split at every newline, keeping empty
segments; the result is never empty. -/
def splitOnNl : List Char → List (List Char)
  | [] => [[]]
  | c :: rest =>
    if c = '\n' then [] :: splitOnNl rest
    else
      match splitOnNl rest with
      | [] => [[c]]
      | l :: ls => (c :: l) :: ls

/-- The body of the scanning loop of `parse_test_output` (`main.py`
lines 336–352) for one line: the result the line produces, if any.
Both substring guards test the raw line; both regex searches run on the
ANSI-stripped line; the two guards are independent `if`s, so a
`'Test Suites:'` line on which the rich pattern fails still reaches the
fallback pattern. -/
def lineEval (line : List Char) : Option (Nat × Nat) :=
  match (if containsSub tsLit line then searchRich (stripAnsi line) else none) with
  | some pt => some pt
  | none =>
    if containsSub passedLit line then
      match searchSimple (stripAnsi line) with
      | some p => some (p, p)
      | none => none
    else none

/-- The scanning loop of `parse_test_output`: first line that yields a
result wins; `(0, 0)` when none does. -/
def parseGo : List (List Char) → Nat × Nat
  | [] => (0, 0)
  | line :: rest =>
    match lineEval line with
    | some pt => pt
    | none => parseGo rest

/-- Module-level `parse_test_output` of `main.py` lines 329–355.  The
`try`/`except` of the source has no counterpart: every operation in the
loop body is total here, and the embedded function is total by
construction. -/
def parse_test_output (output : String) : Nat × Nat :=
  parseGo (splitOnNl output.toList)

example : parse_test_output "Tests: 3 failed, 7 passed, 10 total\nTest Suites: 7 passed, 7 total" = (7, 7) := by decide
example : parse_test_output "Test Suites: 7 passed, 9 total" = (7, 9) := by decide
example : parse_test_output "5 passed" = (5, 5) := by decide
example : parse_test_output "no relevant output" = (0, 0) := by decide
example : parse_test_output "" = (0, 0) := by decide
example : stripAnsi "\x1b[32m7 passed\x1b[0m".toList = "7 passed".toList := by decide

/-- `check_deadline` of `main.py` lines 258–264; timestamps are modelled
as integers, and the function returns the source's literal labels. -/
def check_deadline (commit_date soft hard : Int) : String :=
  if commit_date ≤ soft then "до мягкого"
  else if commit_date ≤ hard then "до жёсткого"
  else "дедлайн превышен"

/-- Split `s` at the first occurrence of `pat`, returning the parts
before and after it, or `none` when `pat` does not occur. -/
def splitFirst (pat : List Char) : List Char → Option (List Char × List Char)
  | [] => if hasPrefixL pat [] then some ([], []) else none
  | c :: rest =>
    if hasPrefixL pat (c :: rest) then some ([], (c :: rest).drop pat.length)
    else (splitFirst pat rest).map (fun p => (c :: p.1, p.2))

/-- Python `s.split(pat)[1]`: the segment between the first and second
occurrence of `pat` (to the end when `pat` occurs once); `none` models
the `IndexError` when `pat` does not occur at all. -/
def splitSecondSeg (pat s : List Char) : Option (List Char) :=
  match splitFirst pat s with
  | none => none
  | some (_, rest) =>
    match splitFirst pat rest with
    | none => some rest
    | some (b, _) => some b

/-- Python `s.split(pat)[0]`: the part before the first occurrence of
`pat`, or all of `s` when `pat` does not occur. -/
def splitHead (pat s : List Char) : List Char :=
  match splitFirst pat s with
  | none => s
  | some (b, _) => b

/-- Python `s.strip()`, restricted to ASCII whitespace. -/
def pyStrip (s : List Char) : List Char :=
  ((s.dropWhile isPySpace).reverse.dropWhile isPySpace).reverse

/-- Digit run as accepted by Python's `int`, continuing after a first
digit: digits with single underscores allowed between digits. -/
def pyDigitsGo : List Char → Nat → Option Nat
  | [], acc => some acc
  | '_' :: c :: rest, acc =>
    if isDigitCh c then pyDigitsGo rest (acc * 10 + (c.toNat - 48)) else none
  | ['_'], _ => none
  | c :: rest, acc =>
    if isDigitCh c then pyDigitsGo rest (acc * 10 + (c.toNat - 48)) else none

/-- Nonempty digit run as accepted by Python's `int` (base 10, ASCII). -/
def pyDigits : List Char → Option Nat
  | [] => none
  | c :: rest =>
    if isDigitCh c then pyDigitsGo rest (c.toNat - 48) else none

/-- Python `int(s)` for base 10: surrounding whitespace ignored,
optional sign, then a digit run; `none` models the `ValueError`. -/
def pyInt (s : List Char) : Option Int :=
  match pyStrip s with
  | '+' :: rest => (pyDigits rest).map Int.ofNat
  | '-' :: rest => (pyDigits rest).map (fun n => -(Int.ofNat n))
  | t => (pyDigits t).map Int.ofNat

namespace TestRunner

/-- The scanning loop of `TestRunner._parse_test_output` (`main.py`
lines 124–156).  On a line containing `'Test Suites:'` the method
always exits: it returns `int(clean_line.split('Test Suites:')[1]
.split('passed')[0].strip())`, and an `IndexError` or `ValueError`
there is caught by the `try` around the whole loop, making the method
return `0`.  Only lines without `'Test Suites:'` reach the fallback
pattern. -/
def trGo : List (List Char) → Int
  | [] => 0
  | line :: rest =>
    if containsSub tsLit line then
      match splitSecondSeg tsLit (stripAnsi line) with
      | none => 0
      | some parts =>
        match pyInt (splitHead passedLit parts) with
        | none => 0
        | some n => n
    else if containsSub passedLit line then
      match searchSimple (stripAnsi line) with
      | some n => (n : Int)
      | none => trGo rest
    else trGo rest

/-- `TestRunner._parse_test_output` of `main.py` lines 116–156: returns
a single passed count (a Python `int`, possibly negative via the
`int(...)` route). -/
def _parse_test_output (output : String) : Int :=
  trGo (splitOnNl output.toList)

end TestRunner

example : TestRunner._parse_test_output "Test Suites: 7 passed, 9 total" = 7 := by decide
example : TestRunner._parse_test_output "5 passed" = 5 := by decide
example : TestRunner._parse_test_output "Test Suites: 12passed, 9 total" = 12 := by decide
example : TestRunner._parse_test_output "Test Suites: ran\n5 passed" = 0 := by decide
example : parse_test_output "Test Suites: 12passed, 9 total" = (0, 0) := by decide

/-- Project kind detected from the manifest files (`package.json` →
js, `pyproject.toml` → python, neither → unknown). -/
inductive ProjType
  | js
  | python
  | unknown
deriving DecidableEq

/-- Abstract outcome of the external operations `run_tests` performs in
one project directory: its detected project kind, whether the install
subprocess raised (it runs with `check=True`), whether launching the
test subprocess raised, and otherwise the test command's exit code and
captured `stdout + stderr`. -/
structure DirRun where
  dname : String
  ptype : ProjType
  installRaises : Bool
  testRaises : Bool
  testReturncode : Int
  testOutput : String
deriving DecidableEq

/-- The per-directory body of `run_tests` (`main.py` lines 370–397 and
400–427): unknown project kind yields `(0, 0)`; an exception from the
install or test subprocess is caught and yields `(0, 0)`; a nonzero
test exit code yields `(0, 0)`; otherwise the captured output is fed to
`parse_test_output`. -/
def dirResult (d : DirRun) : Nat × Nat :=
  match d.ptype with
  | .unknown => (0, 0)
  | _ =>
    if d.installRaises then (0, 0)
    else if d.testRaises then (0, 0)
    else if d.testReturncode ≠ 0 then (0, 0)
    else parse_test_output d.testOutput

/-- `run_tests` of `main.py` lines 357–428 over the abstract directory
outcomes: when digit-named directories exist each is processed in
traversal order, otherwise the repository root is processed under the
key `'root'`. -/
def run_tests (dirs : List DirRun) (root : DirRun) : List (String × (Nat × Nat)) :=
  match dirs with
  | [] => [("root", dirResult root)]
  | _ :: _ => dirs.map (fun d => (d.dname, dirResult d))

/-- The aggregation of `main.py` lines 308–310 over the values of the
`run_tests` dictionary: `passed = sum(v[0] ...)`, `total = sum(v[1]
...)` (Python `sum` is a left fold from `0`), `failed = total - passed`
as a Python integer. -/
def aggregate_results (vals : List (Nat × Nat)) : Nat × Nat × Int :=
  let passed := (vals.map (fun v => v.1)).foldl (· + ·) 0
  let total := (vals.map (fun v => v.2)).foldl (· + ·) 0
  (passed, total, (total : Int) - (passed : Int))

/-- Abstract outcome of the external operations performed for one
student in `process_assignment`: whether the clone/pull raised, the
directory outcomes seen by `run_tests`, whether `get_last_commit_date`
raised, and the commit timestamp it returned (`none` when the
repository has no commits). -/
structure StudentIO where
  cloneRaises : Bool
  dirs : List DirRun
  root : DirRun
  commitRaises : Bool
  commitDate : Option Int
deriving DecidableEq

/-- The error row of `main.py` line 321. -/
def errorRow (sname : String) : String :=
  sname ++ "\tERROR\tERROR\t-\t-\n"

/-- The body of the per-student `try` of `process_assignment`
(`main.py` lines 292–321): an exception from the clone/pull or the
commit-date lookup is caught and produces the `ERROR` row; otherwise
the row carries the summed test counts, `failed = total - passed`, the
formatted commit date (`fmt`) or `-`, and the deadline status or `-`.
`fmt` abstracts `datetime.strftime`. -/
def processStudent (fmt : Int → String) (soft hard : Int) (sname : String)
    (io' : StudentIO) : String :=
  if io'.cloneRaises || io'.commitRaises then errorRow sname
  else
    let agg := aggregate_results ((run_tests io'.dirs io'.root).map (fun p => p.2))
    let commitStr := match io'.commitDate with
      | some d => fmt d
      | none => "-"
    let status := match io'.commitDate with
      | some d => check_deadline d soft hard
      | none => "-"
    sname ++ "\t" ++ toString agg.1 ++ "\t" ++ toString agg.2.2 ++ "\t" ++
      commitStr ++ "\t" ++ status ++ "\n"

/-- The roster loop of `process_assignment` (`main.py` lines 287–321),
before the final sort: one `(name, row)` pair is appended per roster
entry, each produced independently by `processStudent`. -/
def process_assignment_rows (fmt : Int → String) (soft hard : Int) :
    List (String × StudentIO) → List (String × String)
  | [] => []
  | (sname, io') :: rest =>
    (sname, processStudent fmt soft hard sname io') ::
      process_assignment_rows fmt soft hard rest

example :
    processStudent (fun _ => "2024-01-01 00:00") 0 0 "alice"
      ⟨false, [⟨"1", ProjType.unknown, false, false, 0, ""⟩],
        ⟨"root", ProjType.unknown, false, false, 0, ""⟩, false, none⟩ =
      "alice\t0\t0\t-\t-\n" := by decide
example :
    processStudent (fun _ => "x") 0 0 "bob"
      ⟨true, [], ⟨"root", ProjType.unknown, false, false, 0, ""⟩, false, none⟩ =
      "bob\tERROR\tERROR\t-\t-\n" := by decide
example :
    processStudent (fun _ => "d") 5 9 "eve"
      ⟨false, [⟨"1", ProjType.js, false, false, 0, "Test Suites: 7 passed, 9 total"⟩,
        ⟨"2", ProjType.python, false, false, 1, "Test Suites: 3 passed, 3 total"⟩],
        ⟨"root", ProjType.unknown, false, false, 0, ""⟩, false, some 7⟩ =
      "eve\t7\t2\td\tдо жёсткого\n" := by decide

/-- A prefix of lines none of which yields a result does not affect the
scan. -/
lemma parseGo_append (pre ls : List (List Char))
    (h : ∀ l ∈ pre, lineEval l = none) :
    parseGo (pre ++ ls) = parseGo ls := by
  induction pre with
  | nil => rfl
  | cons line rest ih =>
    have hl : lineEval line = none := h line (by simp)
    simp only [List.cons_append, parseGo, hl]
    exact ih (fun l hm => h l (by simp [hm]))

/-- When no line yields a result the scan returns `(0, 0)`. -/
lemma parseGo_eq_zero (ls : List (List Char))
    (h : ∀ l ∈ ls, lineEval l = none) :
    parseGo ls = (0, 0) := by
  have := parseGo_append ls [] h
  simpa using this

/-- C1 (amended): if the first line of the input that matches either
pattern is one containing `'Test Suites:'` on which the rich pattern
yields `(N, M)`, then `parse_test_output` returns `(N, M)`; the lines
after it are arbitrary, so they do not affect the result. -/
theorem parse_test_output_first_rich (output : String)
    (pre rest : List (List Char)) (line : List Char) (N M : Nat)
    (hsplit : splitOnNl output.toList = pre ++ line :: rest)
    (hpre : ∀ l ∈ pre, lineEval l = none)
    (hts : containsSub tsLit line = true)
    (hrich : searchRich (stripAnsi line) = some (N, M)) :
    parse_test_output output = (N, M) := by
  unfold parse_test_output
  rw [hsplit, parseGo_append _ _ hpre]
  simp [parseGo, lineEval, hts, hrich]

/-- Witness for C1's theorem at a concrete input. -/
theorem parse_test_output_first_rich_witness :
    parse_test_output "noise\nTest Suites: 7 passed, 9 total" = (7, 9) :=
  parse_test_output_first_rich _ ["noise".toList] []
    "Test Suites: 7 passed, 9 total".toList 7 9
    (by decide) (by decide) (by decide) (by decide)

/-- C1 (counterexample): the input below contains the well-formed line
`'Test Suites: 7 passed, 9 total'`, yet the parser returns `(5, 5)`,
because an earlier line already matches the fallback pattern. -/
theorem parse_contains_rich_counterexample :
    parse_test_output "5 passed\nTest Suites: 7 passed, 9 total" = (5, 5) ∧
    lineEval "Test Suites: 7 passed, 9 total".toList = some (7, 9) ∧
    ((5, 5) : Nat × Nat) ≠ (7, 9) := by decide

/-- C3 (amended): when no line of the input contains `'Test Suites:'`
and the first line yielding a result matches the fallback pattern with
value `N`, the parser returns `(N, N)`. -/
theorem parse_test_output_first_fallback (output : String)
    (pre rest : List (List Char)) (line : List Char) (N : Nat)
    (hsplit : splitOnNl output.toList = pre ++ line :: rest)
    (hnots : ∀ l ∈ splitOnNl output.toList, containsSub tsLit l = false)
    (hpre : ∀ l ∈ pre, lineEval l = none)
    (hp : containsSub passedLit line = true)
    (hm : searchSimple (stripAnsi line) = some N) :
    parse_test_output output = (N, N) := by
  have hts : containsSub tsLit line = false :=
    hnots line (by rw [hsplit]; simp)
  unfold parse_test_output
  rw [hsplit, parseGo_append _ _ hpre]
  simp [parseGo, lineEval, hts, hp, hm]

/-- Witness for C3's theorem at a concrete input. -/
theorem parse_test_output_first_fallback_witness :
    parse_test_output "noise\n✓ 5 passed" = (5, 5) :=
  parse_test_output_first_fallback _ ["noise".toList] [] "✓ 5 passed".toList 5
    (by decide) (by decide) (by decide) (by decide) (by decide)

/-- C3 (counterexample): the input below contains no `'Test Suites:'`
line and contains the line `'5 passed'` matching the fallback pattern
with `N = 5`, yet the parser returns `(3, 3)`, taken from the earlier
matching line. -/
theorem parse_fallback_counterexample :
    (∀ l ∈ splitOnNl "3 passed\n5 passed".toList, containsSub tsLit l = false) ∧
    containsSub passedLit "5 passed".toList = true ∧
    searchSimple (stripAnsi "5 passed".toList) = some 5 ∧
    parse_test_output "3 passed\n5 passed" = (3, 3) ∧
    ((3, 3) : Nat × Nat) ≠ (5, 5) := by decide

/-- C4: `parse_test_output` is total by construction, and on any input
in which no line yields a match for either pattern it returns
`(0, 0)`. -/
theorem parse_test_output_default_zero (output : String)
    (h : ∀ l ∈ splitOnNl output.toList, lineEval l = none) :
    parse_test_output output = (0, 0) :=
  parseGo_eq_zero _ h

/-- Witness for C4's theorem at a concrete input. -/
theorem parse_test_output_default_zero_witness :
    parse_test_output "no relevant output" = (0, 0) :=
  parse_test_output_default_zero _ (by decide)

/-- C5 (amended): the two pattern guards are independent `if`s, not an
else-if: on a line containing `'Test Suites:'` on which the rich
pattern fails, the fallback pattern is still attempted, and its result
is returned when it matches. -/
theorem parse_test_output_ts_fallback_same_line (output : String)
    (pre rest : List (List Char)) (line : List Char) (p : Nat)
    (hsplit : splitOnNl output.toList = pre ++ line :: rest)
    (hpre : ∀ l ∈ pre, lineEval l = none)
    (hts : containsSub tsLit line = true)
    (hrich : searchRich (stripAnsi line) = none)
    (hp : containsSub passedLit line = true)
    (hm : searchSimple (stripAnsi line) = some p) :
    parse_test_output output = (p, p) := by
  unfold parse_test_output
  rw [hsplit, parseGo_append _ _ hpre]
  simp [parseGo, lineEval, hts, hrich, hp, hm]

/-- Witness for C5's theorem at a concrete input. -/
theorem parse_test_output_ts_fallback_same_line_witness :
    parse_test_output "Test Suites: 5 passed" = (5, 5) :=
  parse_test_output_ts_fallback_same_line _ [] []
    "Test Suites: 5 passed".toList 5
    (by decide) (by decide) (by decide) (by decide) (by decide) (by decide)

/-- C5 (counterexample): the single-line input `'Test Suites: 5
passed'` contains `'Test Suites:'` and fails the rich pattern; under
the claim the fallback would not be applied to it and the parser would
return `(0, 0)`, but the code applies the fallback and returns
`(5, 5)`. -/
theorem parse_elseif_counterexample :
    containsSub tsLit "Test Suites: 5 passed".toList = true ∧
    searchRich (stripAnsi "Test Suites: 5 passed".toList) = none ∧
    containsSub passedLit "Test Suites: 5 passed".toList = true ∧
    parse_test_output "Test Suites: 5 passed" = (5, 5) ∧
    ((5, 5) : Nat × Nat) ≠ (0, 0) := by decide

/-- C6 (amended): the regex searches run on the ANSI-stripped line
while the two substring guards test the raw line, so the result a line
produces depends only on the two raw guard verdicts together with the
stripped line; in particular inserting ANSI sequences that leave the
guards' verdicts unchanged does not change the result. -/
theorem lineEval_congr (l1 l2 : List Char)
    (h1 : containsSub tsLit l1 = containsSub tsLit l2)
    (h2 : containsSub passedLit l1 = containsSub passedLit l2)
    (h3 : stripAnsi l1 = stripAnsi l2) :
    lineEval l1 = lineEval l2 := by
  unfold lineEval
  rw [h1, h2, h3]

/-- Witness for C6's theorem: inserting `'\x1b[32m'` before `'passed'`
leaves both guards and the stripped line unchanged, hence the result. -/
theorem lineEval_congr_witness :
    lineEval "7 \x1b[32mpassed".toList = lineEval "7 passed".toList :=
  lineEval_congr _ _ (by decide) (by decide) (by decide)

/-- C6 (counterexample): inserting the ANSI sequence `'\x1b[0m'` inside
the guard literal `'Test Suites:'` changes the parser's result from
`(7, 9)` to `(7, 7)`: the raw-line guard no longer sees
`'Test Suites:'`, so only the fallback pattern runs on the stripped
line. -/
theorem ansi_insertion_counterexample :
    "Test \x1b[0mSuites: 7 passed, 9 total".toList =
      "Test ".toList ++ "\x1b[0m".toList ++ "Suites: 7 passed, 9 total".toList ∧
    stripAnsi "\x1b[0m".toList = [] ∧
    parse_test_output "Test Suites: 7 passed, 9 total" = (7, 9) ∧
    parse_test_output "Test \x1b[0mSuites: 7 passed, 9 total" = (7, 7) := by decide

/-- C2: for `soft ≤ hard`, `check_deadline` returns the soft-on-time
label when `commit_date ≤ soft` (hence at `commit_date = soft`), the
hard-on-time label when `soft < commit_date ≤ hard` (hence at
`commit_date = hard`), and the late label when `commit_date > hard`
(hence one unit past `hard`). -/
theorem check_deadline_classification (commit_date soft hard : Int)
    (hsh : soft ≤ hard) :
    (commit_date ≤ soft → check_deadline commit_date soft hard = "до мягкого") ∧
    (soft < commit_date → commit_date ≤ hard →
      check_deadline commit_date soft hard = "до жёсткого") ∧
    (hard < commit_date → check_deadline commit_date soft hard = "дедлайн превышен") := by
  unfold check_deadline
  refine ⟨fun h => if_pos h, fun h1 h2 => ?_, fun h => ?_⟩
  · rw [if_neg (by omega), if_pos h2]
  · rw [if_neg (by omega), if_neg (by omega)]

/-- Witness for C2's theorem at the boundary inputs `commit_date =
soft`, `commit_date = hard` and `commit_date = hard + 1`. -/
theorem check_deadline_classification_witness :
    check_deadline 5 5 9 = "до мягкого" ∧
    check_deadline 9 5 9 = "до жёсткого" ∧
    check_deadline 10 5 9 = "дедлайн превышен" :=
  ⟨(check_deadline_classification 5 5 9 (by decide)).1 (by decide),
   (check_deadline_classification 9 5 9 (by decide)).2.1 (by decide) (by decide),
   (check_deadline_classification 10 5 9 (by decide)).2.2 (by decide)⟩

/-- Rank of a deadline status under the ordering soft < hard < late. -/
def statusRank (s : String) : Nat :=
  if s = "до мягкого" then 0 else if s = "до жёсткого" then 1 else 2

/-- C9: `check_deadline` returns exactly one of the three labels, and
it is monotone in the commit date: a later commit never gets a better
status under the ordering on-time-soft < on-time-hard < late. -/
theorem check_deadline_exhaustive_monotone (soft hard d1 d2 : Int)
    (_hsh : soft ≤ hard) (hd : d1 ≤ d2) :
    (check_deadline d1 soft hard = "до мягкого" ∨
     check_deadline d1 soft hard = "до жёсткого" ∨
     check_deadline d1 soft hard = "дедлайн превышен") ∧
    statusRank (check_deadline d1 soft hard) ≤
      statusRank (check_deadline d2 soft hard) := by
  constructor
  · unfold check_deadline
    split_ifs <;> simp
  · unfold check_deadline
    split_ifs <;> first | decide | omega

/-- Witness for C9's theorem at concrete inputs. -/
theorem check_deadline_exhaustive_monotone_witness :
    (check_deadline 6 5 9 = "до мягкого" ∨
     check_deadline 6 5 9 = "до жёсткого" ∨
     check_deadline 6 5 9 = "дедлайн превышен") ∧
    statusRank (check_deadline 6 5 9) ≤ statusRank (check_deadline 11 5 9) :=
  check_deadline_exhaustive_monotone 5 9 6 11 (by decide) (by decide)

/-- Python's `sum` is a left fold from `0`. -/
lemma foldl_add_eq_sum (l : List Nat) (n : Nat) :
    l.foldl (· + ·) n = n + l.sum := by
  induction l generalizing n with
  | nil => simp
  | cons a t ih => simp [ih, List.sum_cons]; omega

/-- C7: the repository-level aggregation sums the per-directory counts:
reported passed is the sum of per-directory passed counts, reported
total is the sum of per-directory totals, the reported failed count is
total minus passed, and passed plus failed gives back total. -/
theorem aggregate_results_sums (vals : List (Nat × Nat)) :
    (aggregate_results vals).1 = (vals.map (fun v => v.1)).sum ∧
    (aggregate_results vals).2.1 = (vals.map (fun v => v.2)).sum ∧
    (aggregate_results vals).2.2 =
      ((aggregate_results vals).2.1 : Int) - ((aggregate_results vals).1 : Int) ∧
    ((aggregate_results vals).1 : Int) + (aggregate_results vals).2.2 =
      ((aggregate_results vals).2.1 : Int) := by
  unfold aggregate_results
  refine ⟨by simp [foldl_add_eq_sum], by simp [foldl_add_eq_sum], rfl, by ring⟩

/-- C8 (amended): each roster entry is processed independently: the row
list for any roster decomposes entrywise, so one student's failure
never aborts the remaining students; and a student whose clone/pull or
commit-date lookup raises gets exactly the `ERROR` row.  (Test-command
failures and unknown project types do not raise out of `run_tests`;
they yield `(0, 0)` counts in a normal row.) -/
theorem process_assignment_isolates_failures (fmt : Int → String)
    (soft hard : Int) (r1 r2 : List (String × StudentIO))
    (sname : String) (io' : StudentIO) :
    process_assignment_rows fmt soft hard (r1 ++ (sname, io') :: r2) =
      process_assignment_rows fmt soft hard r1 ++
        (sname, processStudent fmt soft hard sname io') ::
          process_assignment_rows fmt soft hard r2 ∧
    (io'.cloneRaises = true ∨ io'.commitRaises = true →
      processStudent fmt soft hard sname io' = errorRow sname) := by
  constructor
  · induction r1 with
    | nil => rfl
    | cons hd tl ih =>
      simp only [List.cons_append, process_assignment_rows, List.append_eq, ih]
  · intro h
    unfold processStudent
    rcases h with h | h <;> simp [h]

/-- Witness for C8's theorem: a student whose clone raises gets the
`ERROR` row. -/
theorem process_assignment_isolates_failures_witness :
    processStudent (fun _ => "t") 0 0 "bob"
      ⟨true, [], ⟨"root", ProjType.unknown, false, false, 0, ""⟩, false, none⟩ =
      errorRow "bob" :=
  (process_assignment_isolates_failures (fun _ => "t") 0 0 [] [] "bob"
    ⟨true, [], ⟨"root", ProjType.unknown, false, false, 0, ""⟩, false, none⟩).2
    (Or.inl rfl)

/-- C8 (counterexample): a student whose single project directory has
an unrecognized project type ("missing project type") is not recorded
as an `ERROR` row: `run_tests` yields `(0, 0)` for the directory and
the student gets a normal row with counts `0` and `0`.  The same holds
for a failing test command (`testReturncode = 1`). -/
theorem missing_project_type_row_counterexample :
    processStudent (fun _ => "t") 0 0 "alice"
      ⟨false, [⟨"1", ProjType.unknown, false, false, 0, ""⟩],
        ⟨"root", ProjType.unknown, false, false, 0, ""⟩, false, none⟩ =
      "alice\t0\t0\t-\t-\n" ∧
    processStudent (fun _ => "t") 0 0 "carol"
      ⟨false, [⟨"1", ProjType.js, false, false, 1, "Test Suites: 7 passed, 7 total"⟩],
        ⟨"root", ProjType.unknown, false, false, 0, ""⟩, false, none⟩ =
      "carol\t0\t0\t-\t-\n" ∧
    "alice\t0\t0\t-\t-\n" ≠ errorRow "alice" ∧
    "carol\t0\t0\t-\t-\n" ≠ errorRow "carol" := by decide

/-- On inputs with no `'Test Suites:'` line the two scanning loops
agree. -/
lemma trGo_eq_parseGo (ls : List (List Char))
    (h : ∀ l ∈ ls, containsSub tsLit l = false) :
    TestRunner.trGo ls = ((parseGo ls).1 : Int) := by
  induction ls with
  | nil => rfl
  | cons line rest ih =>
    have hl : containsSub tsLit line = false := h line (by simp)
    have hrest : TestRunner.trGo rest = ((parseGo rest).1 : Int) :=
      ih (fun l hm => h l (by simp [hm]))
    by_cases hp : containsSub passedLit line
    · cases hs : searchSimple (stripAnsi line) with
      | none => simp [TestRunner.trGo, parseGo, lineEval, hl, hp, hs, hrest]
      | some n => simp [TestRunner.trGo, parseGo, lineEval, hl, hp, hs]
    · simp [TestRunner.trGo, parseGo, lineEval, hl, hp, hrest]

/-- C10 (amended): on every input containing no `'Test Suites:'` line,
`TestRunner._parse_test_output` equals the first component of
`parse_test_output`; on `'Test Suites:'` lines the two implementations
extract the count differently (split-and-int versus regex) and can
disagree. -/
theorem parsers_agree_without_ts (output : String)
    (h : ∀ l ∈ splitOnNl output.toList, containsSub tsLit l = false) :
    TestRunner._parse_test_output output = ((parse_test_output output).1 : Int) :=
  trGo_eq_parseGo _ h

/-- Witness for C10's theorem at a concrete input. -/
theorem parsers_agree_without_ts_witness :
    TestRunner._parse_test_output "✓ 5 passed" =
      ((parse_test_output "✓ 5 passed").1 : Int) :=
  parsers_agree_without_ts _ (by decide)

/-- C10 (counterexample): on the input `'Test Suites: 12passed, 9
total'` the class method extracts `12` via split-and-int while the
module-level parser matches neither pattern and returns `(0, 0)`: the
two implementations disagree. -/
theorem parsers_disagree_counterexample :
    TestRunner._parse_test_output "Test Suites: 12passed, 9 total" = 12 ∧
    parse_test_output "Test Suites: 12passed, 9 total" = (0, 0) ∧
    (12 : Int) ≠ ((0 : Nat) : Int) := by decide
